import Mathlib

/-!
# Verification of the particle morphing / procedural-placement engine

Shallow embedding of the particle engine of `src/components/ParticleScene.tsx`
(repository `happyletty/particle`) and proofs of the specification's claims
about it.

Two numeric domains are used:

* The Morph Engine (the per-frame `useFrame` update, lines 986-1022) and the
  meteor spawner (`ShootingStars`, lines 1123-1177) involve only field
  operations and floors, so they are embedded over `ℚ`; every definition is
  computable and the concrete witnesses evaluate by `decide`.
* The Procedural Layout Generator (the `useMemo` block, lines 834-976) uses
  `Math.cos`/`Math.sin`/`Math.sqrt`/`Math.pow` with fractional exponents, so it
  is embedded over `ℝ`.

`Math.random()` draws are modelled as oracle inputs: each per-particle or
per-step random value is a field of an explicit draw record, universally
quantified in the theorems, so every statement holds for every possible draw
sequence.  JavaScript IEEE-754 rounding is not modelled; arithmetic is exact.
-/

namespace ParticleSpec

/-! ## The Morph Engine (rational embedding)

From `ParticleScene.tsx`: the particle record built at lines 964-973 and the
per-frame update at lines 986-1022.  Vectors and RGB colors are both 3-vectors;
`THREE.Vector3.lerp`/`THREE.Color.lerp` share the formula
`this += (target - this) * alpha` componentwise. -/

/-- A 3-component vector (also used for RGB colors), over `ℚ`. -/
structure Vec3 where
  x : ℚ
  y : ℚ
  z : ℚ
  deriving DecidableEq, Repr

/-- `THREE.MathUtils.clamp(value, min, max) = Math.max(min, Math.min(max, value))`. -/
def clamp (value lo hi : ℚ) : ℚ := max lo (min hi value)

/-- `THREE.Vector3.lerp(v, alpha)` / `THREE.Color.lerp(c, alpha)`:
`this.x += (v.x - this.x) * alpha`, componentwise. -/
def Vec3.lerp (a b : Vec3) (alpha : ℚ) : Vec3 :=
  ⟨a.x + (b.x - a.x) * alpha, a.y + (b.y - a.y) * alpha, a.z + (b.z - a.z) * alpha⟩

/-- `export enum ShapeType { GALAXY, TREE }` from `src/types.ts`. -/
inductive ShapeType where
  | galaxy
  | tree
  deriving DecidableEq, Repr

/-- The per-particle record pushed at lines 964-973 of `ParticleScene.tsx`
(`data.push({...})`), with the two fixed targets for position and color. -/
structure Particle where
  shapeType : ℕ
  currentPos : Vec3
  targetPosGalaxy : Vec3
  targetPosTree : Vec3
  currentColor : Vec3
  targetColorGalaxy : Vec3
  targetColorTree : Vec3
  rotation : Vec3
  rotationSpeed : Vec3
  scale : ℚ
  deriving DecidableEq, Repr

/-- Line 986: `const lerpFactor = THREE.MathUtils.clamp(delta * 2.0, 0, 1)`. -/
def lerpFactor (delta : ℚ) : ℚ := clamp (delta * 2) 0 1

/-- Line 1006: `shape === ShapeType.TREE ? particle.targetPos.tree : particle.targetPos.galaxy`. -/
def targetPosOf (shape : ShapeType) (p : Particle) : Vec3 :=
  match shape with
  | .tree => p.targetPosTree
  | .galaxy => p.targetPosGalaxy

/-- Line 1008: the selected target color. -/
def targetColorOf (shape : ShapeType) (p : Particle) : Vec3 :=
  match shape with
  | .tree => p.targetColorTree
  | .galaxy => p.targetColorGalaxy

/-- One particle's mutation in one frame of the `useFrame` loop, lines
1005-1011: `currentPos.lerp(target, lerpFactor)`,
`currentColor.lerp(targetCol, lerpFactor)`, then
`rotation.x += rotationSpeed.x; rotation.y += rotationSpeed.y`
(the source advances only the x and y Euler components). -/
def updateParticle (delta : ℚ) (shape : ShapeType) (p : Particle) : Particle :=
  let lf := lerpFactor delta
  { p with
    currentPos := p.currentPos.lerp (targetPosOf shape p) lf
    currentColor := p.currentColor.lerp (targetColorOf shape p) lf
    rotation := ⟨p.rotation.x + p.rotationSpeed.x, p.rotation.y + p.rotationSpeed.y,
                 p.rotation.z⟩ }

/-- Line 1014: `const geomScale = (i === 0) ? 0 : particle.scale`. -/
def geomScale (i : ℕ) (p : Particle) : ℚ := if i = 0 then 0 else p.scale

/-- `advance` iterated: `n` frames of the per-frame update with a fixed
`delta` and a fixed selected shape. -/
def advanceN (delta : ℚ) (shape : ShapeType) : ℕ → Particle → Particle
  | 0, p => p
  | n + 1, p => advanceN delta shape n (updateParticle delta shape p)

/-- Squared Euclidean distance between two 3-vectors. -/
def distSq (a b : Vec3) : ℚ := (b.x - a.x) ^ 2 + (b.y - a.y) ^ 2 + (b.z - a.z) ^ 2

/-- Explicit convex combination `(1 - alpha) * a + alpha * b`, componentwise. -/
def convexComb (a b : Vec3) (alpha : ℚ) : Vec3 :=
  ⟨(1 - alpha) * a.x + alpha * b.x, (1 - alpha) * a.y + alpha * b.y,
   (1 - alpha) * a.z + alpha * b.z⟩

lemma distSq_nonneg (a b : Vec3) : 0 ≤ distSq a b := by
  unfold distSq; positivity

lemma distSq_lerp (a b : Vec3) (alpha : ℚ) :
    distSq (a.lerp b alpha) b = (1 - alpha) ^ 2 * distSq a b := by
  simp only [Vec3.lerp, distSq]
  ring

lemma lerp_eq_convexComb (a b : Vec3) (alpha : ℚ) :
    a.lerp b alpha = convexComb a b alpha := by
  simp only [Vec3.lerp, convexComb, Vec3.mk.injEq]
  refine ⟨by ring, by ring, by ring⟩

lemma lerpFactor_nonneg (delta : ℚ) : 0 ≤ lerpFactor delta := le_max_left _ _

lemma lerpFactor_le_one (delta : ℚ) : lerpFactor delta ≤ 1 :=
  max_le (by norm_num) (min_le_left _ _)

lemma updateParticle_currentPos (delta : ℚ) (shape : ShapeType) (p : Particle) :
    (updateParticle delta shape p).currentPos
      = p.currentPos.lerp (targetPosOf shape p) (lerpFactor delta) := rfl

lemma updateParticle_targets (delta : ℚ) (shape : ShapeType) (p : Particle) :
    (updateParticle delta shape p).targetPosTree = p.targetPosTree ∧
    (updateParticle delta shape p).targetPosGalaxy = p.targetPosGalaxy :=
  ⟨rfl, rfl⟩

lemma updateParticle_distSq (delta : ℚ) (shape : ShapeType) (p : Particle) :
    distSq (updateParticle delta shape p).currentPos (targetPosOf shape p)
      = (1 - lerpFactor delta) ^ 2 * distSq p.currentPos (targetPosOf shape p) :=
  distSq_lerp _ _ _

lemma advanceN_targetPosTree (delta : ℚ) (n : ℕ) (p : Particle) :
    (advanceN delta .tree n p).targetPosTree = p.targetPosTree := by
  induction n generalizing p with
  | zero => rfl
  | succ n ih => exact ih (updateParticle delta .tree p)

lemma advanceN_distSq (delta : ℚ) (n : ℕ) (p : Particle) :
    distSq (advanceN delta .tree n p).currentPos p.targetPosTree
      = (1 - lerpFactor delta) ^ (2 * n) * distSq p.currentPos p.targetPosTree := by
  induction n generalizing p with
  | zero => simp [advanceN]
  | succ n ih =>
      have h1 := ih (updateParticle delta .tree p)
      rw [show advanceN delta .tree (n + 1) p
            = advanceN delta .tree n (updateParticle delta .tree p) from rfl]
      rw [(updateParticle_targets delta .tree p).1] at h1
      rw [h1]
      have h2 := updateParticle_distSq delta .tree p
      simp only [targetPosOf] at h2
      rw [h2]
      ring

/-! ## Claim C1 -/

/-- C1 (counterexample): the claim describes the per-frame interpolation as
`clamp(Δt * smoothingRate, 0, 1)` at smoothing rate 2.5, but the code's
lerp factor (line 986, `clamp(delta * 2.0, 0, 1)`) differs from the rate-2.5
factor already at Δt = 1/60: the code gives 1/30, rate 2.5 would give 1/24. -/
theorem smoothing_rate_code_vs_claim :
    lerpFactor (1 / 60) ≠ clamp ((1 / 60) * (5 / 2)) 0 1 := by
  norm_num [lerpFactor, clamp, min_def, max_def]

/-- C1 (amended): at the code's smoothing rate 2.0, switching to TREE and
running the per-frame update 180 times with Δt = 1/60 still brings every
particle within 1% of its tree target, from any starting position: the final
squared distance is at most (1/100)² of the initial squared distance. -/
theorem tree_convergence_within_one_percent (p : Particle) :
    distSq (advanceN (1 / 60) .tree 180 p).currentPos p.targetPosTree
      ≤ (1 / 100) ^ 2 * distSq p.currentPos p.targetPosTree := by
  rw [advanceN_distSq]
  have hlf : lerpFactor (1 / 60) = 1 / 30 := by
    norm_num [lerpFactor, clamp, min_def, max_def]
  rw [hlf]
  have hpow : ((1 : ℚ) - 1 / 30) ^ (2 * 180) ≤ (1 / 100) ^ 2 := by norm_num
  exact mul_le_mul_of_nonneg_right hpow (distSq_nonneg _ _)

/-! ## Claim C2 -/

/-- C2: every per-frame update (any Δt, any fixed shape) moves
`currentPos` and `currentColor` to a convex combination of their previous
value and the currently selected target — the lerp factor lies in [0, 1] —
and the distance to the selected target never increases (the exponential
approach never overshoots).  This holds for every Δt, in particular every
non-negative one. -/
theorem morph_step_convex_and_contracting (shape : ShapeType) (p : Particle) (delta : ℚ) :
    ∃ alpha : ℚ, 0 ≤ alpha ∧ alpha ≤ 1 ∧
      (updateParticle delta shape p).currentPos
        = convexComb p.currentPos (targetPosOf shape p) alpha ∧
      (updateParticle delta shape p).currentColor
        = convexComb p.currentColor (targetColorOf shape p) alpha ∧
      distSq (updateParticle delta shape p).currentPos (targetPosOf shape p)
        ≤ distSq p.currentPos (targetPosOf shape p) := by
  refine ⟨lerpFactor delta, lerpFactor_nonneg delta, lerpFactor_le_one delta,
    lerp_eq_convexComb _ _ _, lerp_eq_convexComb _ _ _, ?_⟩
  rw [updateParticle_distSq]
  have h0 := lerpFactor_nonneg delta
  have h1 := lerpFactor_le_one delta
  have hsq : (1 - lerpFactor delta) ^ 2 ≤ 1 := by nlinarith
  calc (1 - lerpFactor delta) ^ 2 * distSq p.currentPos (targetPosOf shape p)
      ≤ 1 * distSq p.currentPos (targetPosOf shape p) :=
        mul_le_mul_of_nonneg_right hsq (distSq_nonneg _ _)
    _ = distSq p.currentPos (targetPosOf shape p) := one_mul _

/-! ## Claim C6 -/

/-- A concrete particle whose rotation velocity has a non-zero z component. -/
def particleZSpin : Particle :=
  { shapeType := 0
    currentPos := ⟨0, 0, 0⟩
    targetPosGalaxy := ⟨0, 0, 0⟩
    targetPosTree := ⟨1, 1, 1⟩
    currentColor := ⟨0, 0, 0⟩
    targetColorGalaxy := ⟨0, 0, 0⟩
    targetColorTree := ⟨1, 1, 1⟩
    rotation := ⟨0, 0, 0⟩
    rotationSpeed := ⟨0, 0, 1⟩
    scale := 1 }

/-- C6 (counterexample): the claim says all three components of the rotation
state advance by the rotation velocity each frame, but the update (lines
1010-1011) increments only x and y; for a particle with rotationSpeed.z = 1
the updated rotation is not the claimed fully-incremented vector. -/
theorem rotation_z_not_advanced :
    (updateParticle 1 .tree particleZSpin).rotation ≠
      ⟨particleZSpin.rotation.x + particleZSpin.rotationSpeed.x,
       particleZSpin.rotation.y + particleZSpin.rotationSpeed.y,
       particleZSpin.rotation.z + particleZSpin.rotationSpeed.z⟩ := by
  intro h
  have hz := congrArg Vec3.z h
  simp only [updateParticle, particleZSpin] at hz
  norm_num at hz

/-- C6 (amended): on every per-frame update, regardless of shape and Δt, the
x and y components of the rotation state advance by the corresponding
components of the per-particle rotation velocity, the z component is left
unchanged, and the rotation velocity itself is never mutated. -/
theorem rotation_update_xy_only (delta : ℚ) (shape : ShapeType) (p : Particle) :
    (updateParticle delta shape p).rotation
        = ⟨p.rotation.x + p.rotationSpeed.x, p.rotation.y + p.rotationSpeed.y,
           p.rotation.z⟩ ∧
    (updateParticle delta shape p).rotationSpeed = p.rotationSpeed :=
  ⟨rfl, rfl⟩

/-! ## Claim C10 -/

/-- C10: the per-frame update mutates only `currentPos`, `currentColor` and
the rotation state; both target positions, both target colors, the scale,
the rotation velocity and the shape kind are identical before and after the
update, for every Δt and shape. -/
theorem frame_update_preserves_immutable_fields (delta : ℚ) (shape : ShapeType)
    (p : Particle) :
    (updateParticle delta shape p).targetPosGalaxy = p.targetPosGalaxy ∧
    (updateParticle delta shape p).targetPosTree = p.targetPosTree ∧
    (updateParticle delta shape p).targetColorGalaxy = p.targetColorGalaxy ∧
    (updateParticle delta shape p).targetColorTree = p.targetColorTree ∧
    (updateParticle delta shape p).scale = p.scale ∧
    (updateParticle delta shape p).rotationSpeed = p.rotationSpeed ∧
    (updateParticle delta shape p).shapeType = p.shapeType :=
  ⟨rfl, rfl, rfl, rfl, rfl, rfl, rfl⟩

/-! ## Claim C9: meteor burst size

Line 1133 of `ParticleScene.tsx`:
`controller.current.burstRemaining = 1 + Math.floor(Math.random() * 2)`. -/

/-- The number of meteors scheduled when a new burst begins, as a function of
the `Math.random()` draw `r ∈ [0, 1)`. -/
def burstSize (r : ℚ) : ℤ := 1 + ⌊r * 2⌋

/-- C9 (counterexample): no random draw in [0, 1) ever schedules a burst of
3 meteors — `1 + Math.floor(r * 2)` never reaches 3. -/
theorem burst_size_never_three :
    ¬ ∃ r : ℚ, 0 ≤ r ∧ r < 1 ∧ burstSize r = 3 := by
  rintro ⟨r, h0, h1, h3⟩
  have h2 : r * 2 < 2 := by linarith
  have hf : ⌊r * 2⌋ < 2 := Int.floor_lt.mpr (by exact_mod_cast h2)
  simp only [burstSize] at h3
  omega

/-- C9 (amended): whenever the controller starts a new burst, the number of
meteors scheduled is between 1 and 2 inclusive, and the value 2 is attained
(for the draw r = 1/2). -/
theorem burst_size_one_or_two :
    (∀ r : ℚ, 0 ≤ r → r < 1 → 1 ≤ burstSize r ∧ burstSize r ≤ 2) ∧
    burstSize (1 / 2) = 2 := by
  constructor
  · intro r h0 h1
    have h2 : r * 2 < 2 := by linarith
    have hu : ⌊r * 2⌋ < 2 := Int.floor_lt.mpr (by exact_mod_cast h2)
    have hl : (0 : ℤ) ≤ ⌊r * 2⌋ := Int.floor_nonneg.mpr (by positivity)
    simp only [burstSize]
    omega
  · norm_num [burstSize]

/-! ## The meteor spawner (`ShootingStars`, lines 1123-1177)

A fixed pool of `count = 6` slots and a controller with `nextSpawnTime` and
`burstRemaining`.  Each frame: if `time > nextSpawnTime`, start a burst if
none is in progress, activate the first inactive slot (if any) with a fresh
lifetime, and reschedule; then every active meteor whose lifetime has elapsed
is marked inactive.  The camera-relative spawn geometry (position/direction
vectors, lines 1138-1145) affects no slot lifecycle and is not modelled. -/

/-- Pool size: `const count = 6`. -/
def meteorCount : ℕ := 6

/-- One meteor slot's lifecycle state (line 1126). -/
structure Meteor where
  active : Bool
  startTime : ℚ
  life : ℚ
  fadeDuration : ℚ
  speed : ℚ
  scale : ℚ
  deriving DecidableEq, Repr

/-- The controller (line 1125): `{ nextSpawnTime: 0, burstRemaining: 0 }`. -/
structure MeteorController where
  nextSpawnTime : ℚ
  burstRemaining : ℤ
  deriving DecidableEq, Repr

/-- The whole spawner state: the controller plus the pool of 6 slots. -/
structure MeteorSystem where
  controller : MeteorController
  meteors : Fin 6 → Meteor

/-- The `Math.random()` draws one frame of the spawner can consume. -/
structure MeteorDraws where
  dBurst : ℚ
  dFade : ℚ
  dLife : ℚ
  dSpeed : ℚ
  dGapBurst : ℚ
  dGapIdle : ℚ
  deriving DecidableEq, Repr

/-- The spawn half of the frame (lines 1132-1151).  Returns the new state and
the slot index assigned to a new meteor, if any:
if `time > nextSpawnTime`: refill `burstRemaining = 1 + floor(rand * 2)` when
it is 0, `find` the first inactive slot, activate it with
`fadeDuration = (rand * 1.5) * 0.5`, `life = 0.4 + rand * 0.2 + fadeDuration`,
`speed = 50 + rand * 10`, `scale = 2.5`, decrement the burst and reschedule
(`time + 0.1 + rand * 0.4` inside a burst, `time + life + 5.0 + rand * 4.0`
after it); with no free slot, retry at `time + 0.1`. -/
def spawnPhase (time : ℚ) (d : MeteorDraws) (s : MeteorSystem) :
    MeteorSystem × Option (Fin 6) :=
  if time > s.controller.nextSpawnTime then
    let br : ℤ := if s.controller.burstRemaining = 0
      then 1 + ⌊d.dBurst * 2⌋ else s.controller.burstRemaining
    match (List.finRange 6).find? (fun j => !(s.meteors j).active) with
    | some j =>
        let fadeDuration := d.dFade * (3 / 2) * (1 / 2)
        let life := 2 / 5 + d.dLife * (1 / 5) + fadeDuration
        let m : Meteor :=
          { active := true, startTime := time, life := life,
            fadeDuration := fadeDuration, speed := 50 + d.dSpeed * 10, scale := 5 / 2 }
        let br' := br - 1
        let nst := if br' > 0 then time + 1 / 10 + d.dGapBurst * (2 / 5)
          else time + life + 5 + d.dGapIdle * 4
        (⟨⟨nst, br'⟩, Function.update s.meteors j m⟩, some j)
    | none => (⟨⟨time + 1 / 10, br⟩, s.meteors⟩, none)
  else (s, none)

/-- The expiry half of the frame (line 1165): every active meteor whose
elapsed time exceeds its lifetime is marked inactive. -/
def expirePhase (time : ℚ) (s : MeteorSystem) : MeteorSystem :=
  { s with meteors := fun j =>
      let m := s.meteors j
      if m.active ∧ time - m.startTime > m.life then { m with active := false } else m }

/-- One full `useFrame` tick of the spawner: spawn, then expire. -/
def meteorStep (time : ℚ) (d : MeteorDraws) (s : MeteorSystem) :
    MeteorSystem × Option (Fin 6) :=
  let r := spawnPhase time d s
  (expirePhase time r.1, r.2)

/-- How many of the 6 slots currently hold an active meteor. -/
def activeCount (s : MeteorSystem) : ℕ :=
  ((List.finRange 6).filter (fun j => (s.meteors j).active)).length

lemma activeCount_le_six (s : MeteorSystem) : activeCount s ≤ 6 := by
  calc activeCount s ≤ (List.finRange 6).length := List.length_filter_le _ _
    _ = 6 := by simp

/-! ## Claim C8 -/

/-- C8: from any spawner state and for any frame time, Δt and random draws,
after a step the number of simultaneously active meteors never exceeds the
pool size 6, and whenever the step assigns a slot to a new meteor, that slot
held no active meteor before the step (slots are only reused after their
meteor has been deactivated).  Applied along any run of the step function,
this gives the claim for every reachable state. -/
theorem meteor_pool_invariant (s : MeteorSystem) (time : ℚ) (d : MeteorDraws) :
    activeCount (meteorStep time d s).1 ≤ meteorCount ∧
    ∀ j : Fin 6, (meteorStep time d s).2 = some j → (s.meteors j).active = false := by
  refine ⟨activeCount_le_six _, fun j hj => ?_⟩
  simp only [meteorStep] at hj
  unfold spawnPhase at hj
  by_cases ht : time > s.controller.nextSpawnTime
  · rw [if_pos ht] at hj
    rcases hfind : (List.finRange 6).find? (fun j => !(s.meteors j).active) with _ | j'
    · rw [hfind] at hj
      simp at hj
    · rw [hfind] at hj
      simp only [Option.some.injEq] at hj
      subst hj
      have := List.find?_some hfind
      simpa using this
  · rw [if_neg ht] at hj
    simp at hj

/-! ## The Procedural Layout Generator (real embedding)

The `useMemo` block of `ParticleScene.tsx`, lines 834-976: constants (lines
12-17), the per-index loop body (lines 856-974) and the accumulated outputs
(`particles`, `haloIndices`, `glareAttributes.indices`).  Every
`Math.random()` call of one loop iteration is a field of `Draws`; `i` is the
loop index and `lastHalo` the running `lastHaloIndex`. -/

def TOTAL_COUNT : ℕ := 6200
noncomputable def GALAXY_RADIUS : ℝ := 18
noncomputable def TREE_HEIGHT : ℝ := 14
noncomputable def TREE_RADIUS : ℝ := 8
def STAR_COUNT : ℕ := 800
def GARLAND_COUNT : ℕ := 2500

/-- Line 854: `const MIN_HALO_GAP = 15`. -/
def MIN_HALO_GAP : ℤ := 15

/-- Line 851: `const branches = 5`. -/
def branches : ℕ := 5

/-- Line 852: `const spin = 1.5`. -/
noncomputable def spin : ℝ := 1.5

/-- A 3-component real vector (positions and colors of the generator). -/
structure RVec3 where
  x : ℝ
  y : ℝ
  z : ℝ

/-- `THREE.Color.lerp` over the real embedding. -/
noncomputable def RVec3.lerp (a b : RVec3) (alpha : ℝ) : RVec3 :=
  ⟨a.x + (b.x - a.x) * alpha, a.y + (b.y - a.y) * alpha, a.z + (b.z - a.z) * alpha⟩

/-! The color constants of lines 840-850, as raw sRGB fractions of their hex
components (the renderer's color-space conversion is not modelled; no claim
depends on color values). -/

noncomputable def cCore : RVec3 := ⟨255 / 255, 236 / 255, 210 / 255⟩
noncomputable def cGold : RVec3 := ⟨255 / 255, 174 / 255, 66 / 255⟩
noncomputable def cDust : RVec3 := ⟨139 / 255, 69 / 255, 19 / 255⟩
noncomputable def cBlue : RVec3 := ⟨79 / 255, 195 / 255, 247 / 255⟩
noncomputable def cDarkBlue : RVec3 := ⟨26 / 255, 35 / 255, 126 / 255⟩
noncomputable def cWhite : RVec3 := ⟨1, 1, 1⟩
noncomputable def colorTree : RVec3 := ⟨16 / 255, 185 / 255, 129 / 255⟩
noncomputable def colorRed : RVec3 := ⟨239 / 255, 68 / 255, 68 / 255⟩
noncomputable def colorStar : RVec3 := ⟨255 / 255, 247 / 255, 0⟩
noncomputable def colorGarlandGold : RVec3 := ⟨251 / 255, 191 / 255, 36 / 255⟩
noncomputable def colorHighlight : RVec3 := ⟨255 / 255, 204 / 255, 0⟩
/-- `new THREE.Color('#059669')` of line 949. -/
noncomputable def cDeepGreen : RVec3 := ⟨5 / 255, 150 / 255, 105 / 255⟩

/-- The `Math.random()` draws one loop iteration can consume, in source
order; each is a value in [0, 1). -/
structure Draws where
  dShape : ℝ
  dGlare : ℝ
  dT : ℝ
  dSpread : ℝ
  dYJit : ℝ
  dStarAngle : ℝ
  dStarDist : ℝ
  dStarZ : ℝ
  dStarColor : ℝ
  dStarSize : ℝ
  dRScatter : ℝ
  dHScatter : ℝ
  dAScatter : ℝ
  dHaloRoll : ℝ
  dGarlandColor : ℝ
  dBodyH : ℝ
  dBodyR : ℝ
  dBodyTheta : ℝ
  dOrn : ℝ
  dOrnType : ℝ
  dGreenLerp : ℝ
  dNoise : ℝ
  dBlueLerp : ℝ
  dRotX : ℝ
  dRotY : ℝ
  dRotZ : ℝ
  dRotInitX : ℝ
  dRotInitY : ℝ
  dBaseScale : ℝ

/-- The generated per-particle record (the real-valued counterpart of
`Particle`), as pushed at lines 964-973. -/
structure ParticleR where
  shapeType : ℤ
  currentPos : RVec3
  targetPosGalaxy : RVec3
  targetPosTree : RVec3
  currentColor : RVec3
  targetColorGalaxy : RVec3
  targetColorTree : RVec3
  rotation : RVec3
  rotationSpeed : RVec3
  scale : ℝ

/-- JavaScript truncation toward zero (`Math.trunc`, the division convention
behind the `%` operator). -/
noncomputable def jsTrunc (x : ℝ) : ℝ := if 0 ≤ x then (⌊x⌋ : ℝ) else (⌈x⌉ : ℝ)

/-- JavaScript `x % y`: the remainder of truncated division. -/
noncomputable def jsMod (x y : ℝ) : ℝ := x - y * jsTrunc (x / y)

/-- Line 867: `const radius = Math.pow(t, 1.2) * GALAXY_RADIUS`. -/
noncomputable def galaxyRadiusOf (d : Draws) : ℝ := d.dT ^ (1.2 : ℝ) * GALAXY_RADIUS

/-- The galaxy target position of particle `i`, lines 866-875:
`branchAngle = (i % branches) * (2π / branches)`,
`curveAngle = radius * 0.3 * spin`,
`randomSpread = (rand - 0.5) * (0.5 + radius * 0.05)`,
`angle = branchAngle + curveAngle + randomSpread`,
`gx = cos(angle) * radius * 1.2`, `gz = sin(angle) * radius`,
`gy = (rand - 0.5) * (2 + (GALAXY_RADIUS - radius) * 0.2) * 1.5`. -/
noncomputable def galaxyPos (i : ℕ) (d : Draws) : RVec3 :=
  let radius := galaxyRadiusOf d
  let branchAngle := ((i % branches : ℕ) : ℝ) * (2 * Real.pi / (branches : ℝ))
  let curveAngle := radius * 0.3 * spin
  let randomSpread := (d.dSpread - 0.5) * (0.5 + radius * 0.05)
  let angle := branchAngle + curveAngle + randomSpread
  ⟨Real.cos angle * radius * 1.2,
   (d.dYJit - 0.5) * (2 + (GALAXY_RADIUS - radius) * 0.2) * 1.5,
   Real.sin angle * radius⟩

/-- The galaxy color of lines 952-961, keyed to the radius band. -/
noncomputable def galaxyColorOf (d : Draws) : RVec3 :=
  let distRel := galaxyRadiusOf d / GALAXY_RADIUS
  let noise := d.dNoise
  if distRel < 0.15 then RVec3.lerp cCore cGold (noise * 0.5)
  else if distRel < 0.5 then
    (if noise > 0.6 then cDust else RVec3.lerp cGold cWhite 0.3)
  else
    (if noise > 0.7 then RVec3.lerp cDarkBlue cDust 0.5
     else RVec3.lerp cBlue cWhite (d.dBlueLerp * 0.5))

/-- What the tree-target branch of the loop (lines 880-951) determines:
the tree position and color, the structural scale multiplier, the (possibly
hero-overridden) galaxy position, whether `i` is pushed onto `haloIndices`,
and the new `lastHaloIndex`. -/
structure BandData where
  tpos : RVec3
  tColor : RVec3
  mult : ℝ
  gpos : RVec3
  haloPush : Bool
  newLastHalo : ℤ

/-- The banded tree-target computation, lines 880-951.  `g0` is the galaxy
position computed just before (the hero branch overrides it to the origin). -/
noncomputable def bandData (i : ℕ) (d : Draws) (lastHalo : ℤ) (g0 : RVec3) : BandData :=
  if i < STAR_COUNT then
    if i = 0 then
      -- lines 881-884: the hero particle at the tree apex, galaxy override to 0
      { tpos := ⟨0, TREE_HEIGHT / 2 + 0.8, 0⟩, tColor := cWhite, mult := 5,
        gpos := ⟨0, 0, 0⟩, haloPush := true, newLastHalo := lastHalo }
    else
      -- lines 885-908: the 5-pointed star topper outline
      let rOuter : ℝ := 0.9
      let rInner : ℝ := 0.25
      let sAngle := d.dStarAngle * Real.pi * 2
      let angleShifted := sAngle - Real.pi / 2
      let numSpikes : ℝ := 5
      let normTheta0 := jsMod angleShifted (Real.pi * 2)
      let normTheta := if normTheta0 < 0 then normTheta0 + Real.pi * 2 else normTheta0
      let segmentStep := Real.pi / numSpikes
      let segmentIdx : ℤ := ⌊normTheta / segmentStep⌋
      let tSeg := jsMod normTheta segmentStep / segmentStep
      let maxR := if segmentIdx % 2 = 0 then rOuter * (1 - tSeg) + rInner * tSeg
        else rInner * (1 - tSeg) + rOuter * tSeg
      let dist := Real.sqrt d.dStarDist
      let r := dist * maxR
      let distNorm := r / rOuter
      let zThickness := 0.6 * (1 - distNorm)
      { tpos := ⟨r * Real.cos sAngle, r * Real.sin sAngle + TREE_HEIGHT / 2 + 0.8,
                 (d.dStarZ - 0.5) * zThickness⟩,
        tColor := RVec3.lerp colorStar cWhite (d.dStarColor * 0.3),
        mult := (1 - distNorm * 0.75) * (0.3 + d.dStarSize * 0.4),
        gpos := g0, haloPush := false, newLastHalo := lastHalo }
  else if i < STAR_COUNT + GARLAND_COUNT then
    -- lines 910-935: the garland spiral
    let garlandIndex := i - STAR_COUNT
    let progress := (garlandIndex : ℝ) / (GARLAND_COUNT : ℝ)
    let h := TREE_HEIGHT * (1 - progress)
    let relHeight := h / TREE_HEIGHT
    let pathRadius := TREE_RADIUS * (1 - relHeight) + 0.1
    let spirals : ℝ := 3
    let baseAngle := progress * Real.pi * 2 * spirals
    let spread : ℝ := 0.8
    let rScatter := (d.dRScatter - 0.5) * spread
    let hScatter := (d.dHScatter - 0.5) * spread
    let aScatter := (d.dAScatter - 0.5) * 0.3
    let tpos : RVec3 := ⟨Real.cos (baseAngle + aScatter) * (pathRadius + rScatter),
                         h - TREE_HEIGHT / 2 + hScatter,
                         Real.sin (baseAngle + aScatter) * (pathRadius + rScatter)⟩
    if (i : ℤ) - lastHalo > MIN_HALO_GAP ∧ d.dHaloRoll < 0.04 then
      { tpos := tpos, tColor := colorHighlight, mult := 1,
        gpos := g0, haloPush := true, newLastHalo := (i : ℤ) }
    else
      { tpos := tpos,
        tColor := if d.dGarlandColor > 0.5 then colorRed else colorGarlandGold,
        mult := 0.5, gpos := g0, haloPush := false, newLastHalo := lastHalo }
  else
    -- lines 936-951: the tree body cone
    let h := d.dBodyH * TREE_HEIGHT
    let relHeight := h / TREE_HEIGHT
    let maxRadiusAtHeight := TREE_RADIUS * (1 - relHeight)
    let r := maxRadiusAtHeight * Real.sqrt d.dBodyR
    let theta := d.dBodyTheta * Real.pi * 2
    let distRel := galaxyRadiusOf d / GALAXY_RADIUS
    { tpos := ⟨r * Real.cos theta, h - TREE_HEIGHT / 2, r * Real.sin theta⟩,
      tColor := if d.dOrn > 0.95 then
          (if d.dOrnType > 0.6 then colorRed
           else if d.dOrnType > 0.3 then colorGarlandGold else cWhite)
        else RVec3.lerp colorTree cDeepGreen d.dGreenLerp,
      mult := 1 - distRel * 0.4,
      gpos := g0, haloPush := false, newLastHalo := lastHalo }

/-- One loop iteration's outputs. -/
structure BuildResult where
  particle : ParticleR
  haloPush : Bool
  newLastHalo : ℤ
  glarePush : Bool

/-- One full iteration of the generator loop (lines 856-974) for index `i`:
the particle record as pushed at lines 964-973, with
`shapeType = Math.floor(Math.random() * 5)`,
`rotationSpeed = (rand - 0.5) * 0.03` per axis,
`rotation = Euler(rand * π, rand * π, 0)`,
`baseScale = rand * 0.35 + 0.08` and `scale = baseScale * mult`, plus
whether `i` joins `haloIndices` / `glareAttributes.indices` (the latter when
`Math.random() < 0.1`, line 860; the glare normal vector is render-only and
not modelled). -/
noncomputable def buildParticle (i : ℕ) (d : Draws) (lastHalo : ℤ) : BuildResult :=
  let bd := bandData i d lastHalo (galaxyPos i d)
  let gColor := galaxyColorOf d
  { particle :=
      { shapeType := ⌊d.dShape * 5⌋
        currentPos := bd.gpos
        targetPosGalaxy := bd.gpos
        targetPosTree := bd.tpos
        currentColor := gColor
        targetColorGalaxy := gColor
        targetColorTree := bd.tColor
        rotation := ⟨d.dRotInitX * Real.pi, d.dRotInitY * Real.pi, 0⟩
        rotationSpeed := ⟨(d.dRotX - 0.5) * 0.03, (d.dRotY - 0.5) * 0.03,
                          (d.dRotZ - 0.5) * 0.03⟩
        scale := (d.dBaseScale * 0.35 + 0.08) * bd.mult }
    haloPush := bd.haloPush
    newLastHalo := bd.newLastHalo
    glarePush := decide (d.dGlare < 0.1) }

/-- The generator's accumulated state: the particle array, the running
`lastHaloIndex` and the `haloIndices` / glare index lists. -/
structure GenState where
  particles : List ParticleR
  lastHalo : ℤ
  hIndices : List ℕ
  gIndices : List ℕ

/-- Folding one loop iteration into the accumulated state. -/
noncomputable def genStep (draws : ℕ → Draws) (s : GenState) (i : ℕ) : GenState :=
  let b := buildParticle i (draws i) s.lastHalo
  { particles := s.particles ++ [b.particle]
    lastHalo := b.newLastHalo
    hIndices := if b.haloPush then s.hIndices ++ [i] else s.hIndices
    gIndices := if b.glarePush then s.gIndices ++ [i] else s.gIndices }

/-- The whole generator: the loop `for (i = 0; i < TOTAL_COUNT; i++)` from
the initial state (`data = []`, `lastHaloIndex = -100`, empty index lists). -/
noncomputable def generate (draws : ℕ → Draws) : GenState :=
  (List.range TOTAL_COUNT).foldl (genStep draws) ⟨[], -100, [], []⟩

/-- The three structural bands of the tree-target generator. -/
inductive Band where
  | star
  | garland
  | body
  deriving DecidableEq, Repr

/-- Which band the loop's `if i < STAR_COUNT / else if
i < STAR_COUNT + GARLAND_COUNT / else` chain assigns to index `i`. -/
def bandOf (i : ℕ) : Band :=
  if i < STAR_COUNT then .star
  else if i < STAR_COUNT + GARLAND_COUNT then .garland
  else .body

/-! ## Claim C3 -/

lemma genStep_particles_length (draws : ℕ → Draws) (s : GenState) (i : ℕ) :
    ((genStep draws s i).particles).length = s.particles.length + 1 := by
  simp [genStep]

lemma foldl_genStep_length (draws : ℕ → Draws) (l : List ℕ) (s : GenState) :
    ((l.foldl (genStep draws) s).particles).length = s.particles.length + l.length := by
  induction l generalizing s with
  | nil => simp
  | cons a l ih =>
      rw [List.foldl_cons, ih, genStep_particles_length]
      simp
      omega

/-- C3: with N = 6200, starCount = 800, garlandCount = 2500, the generated
particle array has length exactly 6200 (one record per loop index, for every
draw sequence), and the band chain assigns every index in [0, N) to exactly
one band, with boundaries [0, 800) star, [800, 3300) garland and
[3300, 6200) body. -/
theorem band_partition_and_array_length :
    (∀ draws : ℕ → Draws, (generate draws).particles.length = 6200) ∧
    (∀ i : Fin 6200,
      (bandOf i.val = .star ↔ i.val < 800) ∧
      (bandOf i.val = .garland ↔ 800 ≤ i.val ∧ i.val < 3300) ∧
      (bandOf i.val = .body ↔ 3300 ≤ i.val ∧ i.val < 6200)) := by
  constructor
  · intro draws
    unfold generate
    rw [foldl_genStep_length]
    simp [TOTAL_COUNT]
  · intro i
    have h6200 := i.isLt
    unfold bandOf STAR_COUNT GARLAND_COUNT
    refine ⟨?_, ?_, ?_⟩ <;> split_ifs <;> simp_all
    all_goals omega

/-! ## Claim C4 -/

lemma bandData_halo (i : ℕ) (d : Draws) (lh : ℤ) (g0 : RVec3) :
    ((bandData i d lh g0).newLastHalo = lh ∧
      ((bandData i d lh g0).haloPush = true → i = 0)) ∨
    ((bandData i d lh g0).haloPush = true ∧
      (bandData i d lh g0).newLastHalo = (i : ℤ) ∧
      lh + MIN_HALO_GAP < (i : ℤ) ∧ STAR_COUNT ≤ i) := by
  unfold bandData
  by_cases h1 : i < STAR_COUNT
  · rw [if_pos h1]
    by_cases h2 : i = 0
    · subst h2
      rw [if_pos rfl]
      exact Or.inl ⟨rfl, fun _ => rfl⟩
    · rw [if_neg h2]
      exact Or.inl ⟨rfl, fun h => nomatch h⟩
  · rw [if_neg h1]
    by_cases h3 : i < STAR_COUNT + GARLAND_COUNT
    · rw [if_pos h3]
      by_cases h4 : (i : ℤ) - lh > MIN_HALO_GAP ∧ d.dHaloRoll < 0.04
      · rw [if_pos h4]
        right
        obtain ⟨h4a, _⟩ := h4
        refine ⟨rfl, rfl, by omega, by omega⟩
      · rw [if_neg h4]
        exact Or.inl ⟨rfl, fun h => nomatch h⟩
    · rw [if_neg h3]
      exact Or.inl ⟨rfl, fun h => nomatch h⟩

lemma buildParticle_halo (i : ℕ) (d : Draws) (lh : ℤ) :
    ((buildParticle i d lh).newLastHalo = lh ∧
      ((buildParticle i d lh).haloPush = true → i = 0)) ∨
    ((buildParticle i d lh).haloPush = true ∧
      (buildParticle i d lh).newLastHalo = (i : ℤ) ∧
      lh + MIN_HALO_GAP < (i : ℤ) ∧ STAR_COUNT ≤ i) :=
  bandData_halo i d lh (galaxyPos i d)

lemma genStep_def (draws : ℕ → Draws) (s : GenState) (i : ℕ) :
    genStep draws s i =
      { particles := s.particles ++ [(buildParticle i (draws i) s.lastHalo).particle]
        lastHalo := (buildParticle i (draws i) s.lastHalo).newLastHalo
        hIndices := if (buildParticle i (draws i) s.lastHalo).haloPush
          then s.hIndices ++ [i] else s.hIndices
        gIndices := if (buildParticle i (draws i) s.lastHalo).glarePush
          then s.gIndices ++ [i] else s.gIndices } := rfl

/-- The invariant the halo fold maintains after processing the indices below
`n`: the collected indices are pairwise increasing with the gap property,
all below `n`, and every garland-band entry is at most `lastHaloIndex`. -/
def HaloInv (n : ℕ) (s : GenState) : Prop :=
  s.hIndices.Pairwise
    (fun a b => a < b ∧ (STAR_COUNT ≤ a → (a : ℤ) + MIN_HALO_GAP < (b : ℤ))) ∧
  (∀ a ∈ s.hIndices, a < n) ∧
  (∀ a ∈ s.hIndices, STAR_COUNT ≤ a → (a : ℤ) ≤ s.lastHalo)

lemma haloInv_step (draws : ℕ → Draws) (n : ℕ) (s : GenState)
    (h : HaloInv n s) : HaloInv (n + 1) (genStep draws s n) := by
  obtain ⟨hp, hlt, hle⟩ := h
  rw [genStep_def]
  unfold HaloInv
  rcases buildParticle_halo n (draws n) s.lastHalo with ⟨hL1, hL2⟩ | ⟨hP, hNew, hGap, hStar⟩
  · by_cases hb : (buildParticle n (draws n) s.lastHalo).haloPush
    · have hn0 : n = 0 := hL2 hb
      subst hn0
      have hnil : s.hIndices = [] := by
        rcases hmem : s.hIndices with _ | ⟨a, l⟩
        · rfl
        · have := hlt a (by rw [hmem]; simp)
          omega
      simp only [if_pos hb, hnil, hL1, List.nil_append]
      refine ⟨List.pairwise_singleton _ _, ?_, ?_⟩
      · intro a ha
        simp only [List.mem_singleton] at ha
        omega
      · intro a ha h800
        simp only [List.mem_singleton] at ha
        subst ha
        exact absurd h800 (by norm_num [STAR_COUNT])
    · simp only [if_neg hb, hL1]
      exact ⟨hp, fun a ha => Nat.lt_succ_of_lt (hlt a ha), hle⟩
  · simp only [if_pos hP, hNew]
    refine ⟨?_, ?_, ?_⟩
    · rw [List.pairwise_append]
      refine ⟨hp, List.pairwise_singleton _ _, ?_⟩
      intro a ha b hb
      simp only [List.mem_singleton] at hb
      subst hb
      exact ⟨hlt a ha, fun h800 => by have := hle a ha h800; omega⟩
    · intro a ha
      rcases List.mem_append.mp ha with ha | ha
      · exact Nat.lt_succ_of_lt (hlt a ha)
      · simp only [List.mem_singleton] at ha
        omega
    · intro a ha h800
      rcases List.mem_append.mp ha with ha | ha
      · have := hle a ha h800
        have hgap15 : (0 : ℤ) < MIN_HALO_GAP := by norm_num [MIN_HALO_GAP]
        omega
      · simp only [List.mem_singleton] at ha
        omega

lemma haloInv_range (draws : ℕ → Draws) (n : ℕ) :
    HaloInv n ((List.range n).foldl (genStep draws) ⟨[], -100, [], []⟩) := by
  induction n with
  | zero => exact ⟨List.Pairwise.nil, by simp, by simp⟩
  | succ n ih =>
      rw [List.range_succ, List.foldl_append, List.foldl_cons, List.foldl_nil]
      exact haloInv_step draws n _ ih

/-- C4: for every draw sequence, the collected halo index list is strictly
increasing, and any two entries in the garland band (index ≥ 800 = starCount)
are more than MIN_HALO_GAP = 15 apart — a hard constraint on every random
draw sequence, not merely a high-probability one. -/
theorem garland_halo_min_gap (draws : ℕ → Draws) :
    (generate draws).hIndices.Pairwise
      (fun a b => a < b ∧ (STAR_COUNT ≤ a → (a : ℤ) + MIN_HALO_GAP < (b : ℤ))) :=
  (haloInv_range draws TOTAL_COUNT).1

/-! ## Claim C7 -/

lemma bandData_hero (d : Draws) (lh : ℤ) (g0 : RVec3) :
    bandData 0 d lh g0 =
      { tpos := ⟨0, TREE_HEIGHT / 2 + 0.8, 0⟩, tColor := cWhite, mult := 5,
        gpos := ⟨0, 0, 0⟩, haloPush := true, newLastHalo := lh } := by
  unfold bandData
  simp [STAR_COUNT]

lemma foldl_genStep_particles (draws : ℕ → Draws) (l : List ℕ) (s : GenState) :
    ∃ tl, (l.foldl (genStep draws) s).particles = s.particles ++ tl := by
  induction l generalizing s with
  | nil => exact ⟨[], by simp⟩
  | cons a l ih =>
      obtain ⟨tl, htl⟩ := ih (genStep draws s a)
      refine ⟨[(buildParticle a (draws a) s.lastHalo).particle] ++ tl, ?_⟩
      rw [List.foldl_cons, htl]
      simp [genStep_def]

lemma foldl_genStep_hIndices (draws : ℕ → Draws) (l : List ℕ) (s : GenState) :
    ∃ tl, (l.foldl (genStep draws) s).hIndices = s.hIndices ++ tl := by
  induction l generalizing s with
  | nil => exact ⟨[], by simp⟩
  | cons a l ih =>
      obtain ⟨tl, htl⟩ := ih (genStep draws s a)
      by_cases hb : (buildParticle a (draws a) s.lastHalo).haloPush
      · refine ⟨[a] ++ tl, ?_⟩
        rw [List.foldl_cons, htl]
        simp [genStep_def, hb]
      · refine ⟨tl, ?_⟩
        rw [List.foldl_cons, htl]
        simp [genStep_def, hb]

/-- C7: for every draw sequence, the hero particle (index 0, the first
generated record) has its galaxy target overridden to the origin, its tree
target at the tree apex (on the axis, 0.8 above the cone top), its index is
still pushed onto the halo index list (so the glow overlay stays keyed to
its position), and the per-frame rendered body scale of particle 0 is forced
to 0. -/
theorem hero_particle_overrides (draws : ℕ → Draws) :
    (generate draws).particles.head?
        = some (buildParticle 0 (draws 0) (-100)).particle ∧
    (buildParticle 0 (draws 0) (-100)).particle.targetPosGalaxy = ⟨0, 0, 0⟩ ∧
    (buildParticle 0 (draws 0) (-100)).particle.targetPosTree
        = ⟨0, TREE_HEIGHT / 2 + 0.8, 0⟩ ∧
    0 ∈ (generate draws).hIndices ∧
    ∀ p : Particle, geomScale 0 p = 0 := by
  have hgal : (buildParticle 0 (draws 0) (-100)).particle.targetPosGalaxy = ⟨0, 0, 0⟩ := by
    show (bandData 0 (draws 0) (-100) (galaxyPos 0 (draws 0))).gpos = _
    rw [bandData_hero]
  have htree : (buildParticle 0 (draws 0) (-100)).particle.targetPosTree
      = ⟨0, TREE_HEIGHT / 2 + 0.8, 0⟩ := by
    show (bandData 0 (draws 0) (-100) (galaxyPos 0 (draws 0))).tpos = _
    rw [bandData_hero]
  have hpush : (buildParticle 0 (draws 0) (-100)).haloPush = true := by
    show (bandData 0 (draws 0) (-100) (galaxyPos 0 (draws 0))).haloPush = true
    rw [bandData_hero]
  have hrange : List.range TOTAL_COUNT = 0 :: (List.range 6199).map Nat.succ := by
    rw [show TOTAL_COUNT = 6199 + 1 from rfl, List.range_succ_eq_map]
  have hstep0 : genStep draws ⟨[], -100, [], []⟩ 0 =
      { particles := [(buildParticle 0 (draws 0) (-100)).particle]
        lastHalo := (buildParticle 0 (draws 0) (-100)).newLastHalo
        hIndices := [0]
        gIndices := if (buildParticle 0 (draws 0) (-100)).glarePush then [0] else [] } := by
    simp [genStep_def, hpush]
  refine ⟨?_, hgal, htree, ?_, fun p => by simp [geomScale]⟩
  · unfold generate
    rw [hrange, List.foldl_cons, hstep0]
    obtain ⟨tl, htl⟩ := foldl_genStep_particles draws ((List.range 6199).map Nat.succ) _
    rw [htl]
    simp
  · unfold generate
    rw [hrange, List.foldl_cons, hstep0]
    obtain ⟨tl, htl⟩ := foldl_genStep_hIndices draws ((List.range 6199).map Nat.succ) _
    rw [htl]
    simp

/-! ## Claim C5 -/

/-- The spiral pitch the spec names: the code's `radius * 0.3 * spin` is
`radius * spiralPitch` with `spiralPitch = 0.3 * spin`. -/
noncomputable def spiralPitch : ℝ := 0.3 * spin

/-- Modelled from the claim: the galaxy position exactly as C5 states it —
`radius = galaxyRadius * t^1.2`, branch `i mod branchCount`,
`angle = branchAngle + radius * spiralPitch + spread`, and position
`(cos(angle) * radius, verticalJitter, sin(angle) * radius)` with no
stretch factor on the x component. -/
noncomputable def galaxySpecClaimed (i : ℕ) (d : Draws) : RVec3 :=
  let radius := GALAXY_RADIUS * d.dT ^ (1.2 : ℝ)
  let branchAngle := ((i % branches : ℕ) : ℝ) * (2 * Real.pi / (branches : ℝ))
  let spread := (d.dSpread - 0.5) * (0.5 + radius * 0.05)
  let angle := branchAngle + radius * spiralPitch + spread
  let verticalJitter := (d.dYJit - 0.5) * (2 + (GALAXY_RADIUS - radius) * 0.2) * 1.5
  ⟨Real.cos angle * radius, verticalJitter, Real.sin angle * radius⟩

/-- The claim's formula amended by the counterexample: the code stretches the
x component by the factor 1.2 (`gx = Math.cos(angle) * radius * 1.2`,
line 873), so the galaxy disc is an ellipse, not a circle. -/
noncomputable def galaxySpecAmended (i : ℕ) (d : Draws) : RVec3 :=
  let radius := GALAXY_RADIUS * d.dT ^ (1.2 : ℝ)
  let branchAngle := ((i % branches : ℕ) : ℝ) * (2 * Real.pi / (branches : ℝ))
  let spread := (d.dSpread - 0.5) * (0.5 + radius * 0.05)
  let angle := branchAngle + radius * spiralPitch + spread
  let verticalJitter := (d.dYJit - 0.5) * (2 + (GALAXY_RADIUS - radius) * 0.2) * 1.5
  ⟨Real.cos angle * radius * 1.2, verticalJitter, Real.sin angle * radius⟩

lemma buildParticle_targetGalaxy (i : ℕ) (d : Draws) (lh : ℤ) (hi : i ≠ 0) :
    (buildParticle i d lh).particle.targetPosGalaxy = galaxyPos i d := by
  show (bandData i d lh (galaxyPos i d)).gpos = galaxyPos i d
  unfold bandData
  by_cases h1 : i < STAR_COUNT
  · rw [if_pos h1, if_neg hi]
  · rw [if_neg h1]
    by_cases h3 : i < STAR_COUNT + GARLAND_COUNT
    · rw [if_pos h3]
      by_cases h4 : (i : ℤ) - lh > MIN_HALO_GAP ∧ d.dHaloRoll < 0.04
      · rw [if_pos h4]
      · rw [if_neg h4]
    · rw [if_neg h3]

/-- A Draws record with all draw fields 0. -/
noncomputable def drawsZero : Draws :=
  ⟨0, 0, 0, 0, 0, 0, 0, 0, 0, 0, 0, 0, 0, 0, 0, 0, 0, 0, 0, 0, 0, 0, 0, 0, 0, 0, 0, 0, 0⟩

/-- The concrete draw record of the C5 counterexample: `t = 1/32` (so
`radius = 18 / 64 = 9/32`) and a centered spread draw (so the random spread
vanishes); all other draws 0. -/
noncomputable def drawsC5 : Draws := { drawsZero with dT := 1 / 32, dSpread := 1 / 2 }

lemma rpow_one_div_32 : ((1 : ℝ) / 32) ^ (1.2 : ℝ) = 1 / 64 := by
  have h1 : ((1 : ℝ) / 32) = (1 / 2 : ℝ) ^ (5 : ℕ) := by norm_num
  rw [h1, ← Real.rpow_natCast ((1 : ℝ) / 2) 5,
    ← Real.rpow_mul (by norm_num : (0 : ℝ) ≤ 1 / 2)]
  rw [show ((5 : ℕ) : ℝ) * (1.2 : ℝ) = ((6 : ℕ) : ℝ) by norm_num,
    Real.rpow_natCast]
  norm_num

/-- C5 (counterexample): at particle index 5 (branch 5 mod 5 = 0) with draw
t = 1/32 and centered spread/jitter draws, the generated galaxy target does
not equal the claim's `(cos(angle)*radius, jitter, sin(angle)*radius)`: the
code's x component carries the extra 1.2 stretch and the angle
`radius * 0.45 = 81/640` lies in (-π/2, π/2), where the cosine is positive,
so the two x components differ. -/
theorem galaxy_x_formula_mismatch :
    (buildParticle 5 drawsC5 (-100)).particle.targetPosGalaxy
      ≠ galaxySpecClaimed 5 drawsC5 := by
  rw [buildParticle_targetGalaxy 5 drawsC5 (-100) (by norm_num)]
  intro h
  have hx := congrArg RVec3.x h
  simp only [galaxyPos, galaxySpecClaimed, galaxyRadiusOf, spiralPitch, spin,
    GALAXY_RADIUS, branches, drawsC5, drawsZero] at hx
  rw [rpow_one_div_32] at hx
  norm_num at hx
  have hpi := Real.pi_gt_three
  have hc : (0 : ℝ) < Real.cos (81 / 640) := by
    apply Real.cos_pos_of_mem_Ioo
    constructor
    · nlinarith
    · nlinarith
  nlinarith [hx, hc]

/-- C5 (amended): for every non-hero particle index and every draw record,
the generated galaxy target equals the claim's formula with the x component
stretched by 1.2: radius = galaxyRadius * t^1.2, branch = i mod branchCount,
angle = branchAngle + radius * spiralPitch + spread (spread widening with
radius), position = (cos(angle) * radius * 1.2, verticalJitter,
sin(angle) * radius). -/
theorem galaxy_position_formula_amended (i : ℕ) (d : Draws) (lh : ℤ) (hi : i ≠ 0) :
    (buildParticle i d lh).particle.targetPosGalaxy = galaxySpecAmended i d := by
  rw [buildParticle_targetGalaxy i d lh hi]
  simp only [galaxyPos, galaxySpecAmended, galaxyRadiusOf, spiralPitch, RVec3.mk.injEq]
  refine ⟨?_, by ring, ?_⟩
  · rw [show d.dT ^ (1.2 : ℝ) * GALAXY_RADIUS * 0.3 * spin
        = GALAXY_RADIUS * d.dT ^ (1.2 : ℝ) * (0.3 * spin) by ring,
      show (d.dSpread - 0.5) * (0.5 + d.dT ^ (1.2 : ℝ) * GALAXY_RADIUS * 0.05)
        = (d.dSpread - 0.5) * (0.5 + GALAXY_RADIUS * d.dT ^ (1.2 : ℝ) * 0.05) by ring]
    ring
  · rw [show d.dT ^ (1.2 : ℝ) * GALAXY_RADIUS * 0.3 * spin
        = GALAXY_RADIUS * d.dT ^ (1.2 : ℝ) * (0.3 * spin) by ring,
      show (d.dSpread - 0.5) * (0.5 + d.dT ^ (1.2 : ℝ) * GALAXY_RADIUS * 0.05)
        = (d.dSpread - 0.5) * (0.5 + GALAXY_RADIUS * d.dT ^ (1.2 : ℝ) * 0.05) by ring]
    ring

/-- C5 (witness for the amended theorem): the concrete instance at particle
index 5 with the counterexample's draw record. -/
theorem galaxy_position_formula_amended_inst :
    (5 ≠ 0) ∧
    (buildParticle 5 drawsC5 (-100)).particle.targetPosGalaxy
      = galaxySpecAmended 5 drawsC5 :=
  ⟨by norm_num, galaxy_position_formula_amended 5 drawsC5 (-100) (by norm_num)⟩

end ParticleSpec
